import Mathlib

set_option maxHeartbeats 1000000

namespace KTPM

/-! Shallow embedding of the KTPM-CS2 asynchronous job pipeline.

The ingress HTTP handlers (handleUpload, handleStatus, handleDownload) are
embedded from the API server source, the worker loop and pipeline from
worker/main.go (processImage, updateJobStatus, saveJobDetails), and the
translation retry loop from pkg/translator/translator.go
(TranslateWithConfig, DefaultTranslationConfig).

External effects (file system, Redis faults, Kafka, the OCR / translation /
PDF collaborators) are supplied as explicit oracle records; the Redis keys
of a single job (job_id:status, job_id:pdfpath, job_id:error,
job_id:details) and the artifact-cache entry of a single image fingerprint
(imagehash:fp) are the explicit state. -/

/-- Constant from worker/main.go and the API server: directory holding
produced PDF artifacts. -/
def pdfDir : String := "../output/pdfs"

/-- Constant from the API server: staging directory for uploads. -/
def uploadDir : String := "../output/uploads"

/-- Staging path of an upload, from handleUpload:
filepath.Join(uploadDir, jobID-filename). -/
def uploadPath (jobID filename : String) : String :=
  uploadDir ++ "/" ++ jobID ++ "-" ++ filename

/-- Deterministic artifact path of a job, from processImage:
filepath.Join(pdfDir, jobID.pdf). -/
def pdfOutputPath (jobID : String) : String :=
  pdfDir ++ "/" ++ jobID ++ ".pdf"

/-- The Redis keys of one job: job_id:status, job_id:pdfpath, job_id:error
(plain string keys, absent = none) and the job_id:details hash, modelled as
an association list. -/
structure JobKeys where
  status : Option String
  pdfpath : Option String
  error : Option String
  details : List (String × String)
deriving Repr, DecidableEq

/-- A job with no Redis keys yet (fresh UUID job identifier). -/
def JobKeys.fresh : JobKeys := ⟨none, none, none, []⟩

/-- Shared store visible to ingress and worker for one job and one image
fingerprint: the job keys plus the imagehash:fp artifact-cache entry. -/
structure WStore where
  job : JobKeys
  cache : Option String
deriving Repr, DecidableEq

/-- Set one field of a Redis hash, as HSET does inside HMSet: overwrite the
field if present, append it otherwise. -/
def hsetField (m : List (String × String)) (k v : String) : List (String × String) :=
  if (m.lookup k).isSome then
    m.map (fun p => if p.1 = k then (k, v) else p)
  else
    m ++ [(k, v)]

/-- HMSet of worker saveJobDetails: write every pair of the details map
into the job_id:details hash. -/
def hmset (m kvs : List (String × String)) : List (String × String) :=
  kvs.foldl (fun acc p => hsetField acc p.1 p.2) m

/-- Worker updateJobStatus: one pipelined write that sets job_id:status and
then, for completed, sets job_id:pdfpath and deletes job_id:error; for
failed, sets job_id:error and deletes job_id:pdfpath; otherwise deletes
both result keys. -/
def updateJobStatus (r : JobKeys) (status result : String) : JobKeys :=
  if status = "completed" then
    { r with status := some status, pdfpath := some result, error := none }
  else if status = "failed" then
    { r with status := some status, error := some result, pdfpath := none }
  else
    { r with status := some status, pdfpath := none, error := none }

/-- Worker saveJobDetails: HMSet the details map into the job_id:details
hash (called by the consumer loop only after a successful processImage). -/
def saveJobDetails (r : JobKeys) (details : List (String × String)) : JobKeys :=
  { r with details := hmset r.details details }

/-- Store effects the worker issues while handling one delivered message,
in program order. -/
inductive Ev
  | status (s r : String)
  | cachePut (p : String)
  | saveDetails (d : List (String × String))
  | commit
deriving Repr, DecidableEq

/-- Effect of one worker store operation on the shared store (an offset
commit touches the broker, not the store). -/
def applyEv (st : WStore) (e : Ev) : WStore :=
  match e with
  | .status s r => { st with job := updateJobStatus st.job s r }
  | .cachePut p => { st with cache := some p }
  | .saveDetails d => { st with job := saveJobDetails st.job d }
  | .commit => st

/-- Apply a sequence of worker store operations in order. -/
def applyEvs (st : WStore) (l : List Ev) : WStore := l.foldl applyEv st

/-- External outcomes of one processImage execution: directory creation,
hashing the image file, a Redis fault during the cache probe, the four
pipeline collaborators, the PDF rename, and the recorded stage timings. -/
structure WOracle where
  mkdirOk : Bool
  hashOk : Bool
  probeFault : Bool
  filter : Except String String
  ocr : Except String String
  translate : Except String String
  pdfGen : Except String String
  renameOk : Bool
  filterMs : String
  ocrMs : String
  translateMs : String
  pdfMs : String
deriving Repr

/-- Result of redisClient.Get on the imagehash:fp key: a non-Nil Redis
error, the stored value, or redis.Nil when the key is absent. -/
inductive ProbeOutcome
  | found (v : String)
  | absent
  | fault
deriving Repr, DecidableEq

/-- Cache probe of processImage, resolved against the store. -/
def probeResult (cache : Option String) (o : WOracle) : ProbeOutcome :=
  if o.probeFault then .fault
  else
    match cache with
    | some v => .found v
    | none => .absent

/-- Cache-miss continuation of processImage: details.cached is set to
false, the job transitions to processing, and the filter, OCR, translate
and PDF stages run in order, each error writing a stage-qualified failed
record; on success the completed record and the artifact-cache entry are
written. Returns the details map of the consumer loop and the store
effects in order. -/
def processMiss (jobID : String) (o : WOracle) :
    Option (List (String × String)) × List Ev :=
  let pre : List Ev := [Ev.status "processing" ""]
  match o.filter with
  | .error e => (none, pre ++ [Ev.status "failed" ("Image filtering error: " ++ e)])
  | .ok _ =>
    match o.ocr with
    | .error e => (none, pre ++ [Ev.status "failed" ("OCR error: " ++ e)])
    | .ok _ =>
      match o.translate with
      | .error e => (none, pre ++ [Ev.status "failed" ("Translation error: " ++ e)])
      | .ok _ =>
        match o.pdfGen with
        | .error e => (none, pre ++ [Ev.status "failed" ("PDF generation error: " ++ e)])
        | .ok tempPath =>
          let out := pdfOutputPath jobID
          if tempPath ≠ out ∧ o.renameOk = false then
            (none, pre ++ [Ev.status "failed" "Failed to rename/move PDF"])
          else
            (some [("cached", "false"), ("filter_ms", o.filterMs),
                   ("ocr_ms", o.ocrMs), ("translate_ms", o.translateMs),
                   ("pdf_ms", o.pdfMs), ("pdf_path", out)],
             pre ++ [Ev.status "completed" out, Ev.cachePut out])

/-- Worker processImage: ensure the output directory, hash the image,
probe the artifact cache; a hit writes the completed record with the
cached path and details cached = true; redis.Nil and any other probe error
both fall through to the miss continuation. -/
def processImage (cache : Option String) (jobID : String) (o : WOracle) :
    Option (List (String × String)) × List Ev :=
  if o.mkdirOk = false then
    (none, [Ev.status "failed" "Cannot create PDF output directory"])
  else if o.hashOk = false then
    (none, [Ev.status "failed" "Failed to calculate image hash"])
  else
    match probeResult cache o with
    | .found v =>
      if v = "" then processMiss jobID o
      else (some [("pdf_path", v), ("cached", "true")], [Ev.status "completed" v])
    | .absent => processMiss jobID o
    | .fault => processMiss jobID o

/-- Store effects of the consumer loop for one delivered message, before
the offset commit: the processImage effects, then saveJobDetails when
processImage succeeded. -/
def workerBody (st : WStore) (jobID : String) (o : WOracle) : List Ev :=
  let r := processImage st.cache jobID o
  r.2 ++ (match r.1 with
          | some d => [Ev.saveDetails d]
          | none => [])

/-- Full store-effect trace of the consumer loop for one delivered
message: the body followed by the offset commit. -/
def workerTrace (st : WStore) (jobID : String) (o : WOracle) : List Ev :=
  workerBody st jobID o ++ [Ev.commit]

/-- Shared store after the consumer loop has fully handled one delivered
message. -/
def runMessage (st : WStore) (jobID : String) (o : WOracle) : WStore :=
  applyEvs st (workerTrace st jobID o)

/-- Statuses written by a sequence of store effects, in order. -/
def statusWrites (l : List Ev) : List String :=
  l.filterMap (fun e => match e with
    | .status s _ => some s
    | _ => none)

/-! Ingress: the three HTTP handlers of the API server. -/

/-- Response of handleUpload. -/
inductive UploadResp
  | badRequest (msg : String)
  | serverError (msg : String)
  | okResp (jobId : String)
deriving Repr, DecidableEq

/-- Observable outcome of one handleUpload call: the HTTP response, the
value written to job_id:status (none when no write happened), and the
messages published to the broker as (job_id, image_path) pairs. -/
structure UploadOutcome where
  resp : UploadResp
  statusWrite : Option String
  published : List (String × String)
deriving Repr, DecidableEq

/-- External outcomes of one handleUpload call: form parse, file save,
the Redis status write, message marshalling, and the Kafka publish. -/
structure UploadOracle where
  formOk : Bool
  saveOk : Bool
  redisOk : Bool
  marshalOk : Bool
  kafkaOk : Bool
deriving Repr, DecidableEq

/-- Ingress handleUpload: save the upload, write job_id:status = queued,
publish the job message keyed by the job identifier. The store argument
carries the artifact cache; the handler issues no read of it — the source
consults the cache only in the worker. -/
def handleUpload (_st : WStore) (o : UploadOracle) (jobID filename : String) :
    UploadOutcome :=
  if o.formOk = false then
    ⟨.badRequest "Image file is required", none, []⟩
  else if o.saveOk = false then
    ⟨.serverError "Failed to save uploaded file", none, []⟩
  else if o.redisOk = false then
    ⟨.serverError "Failed to initiate job processing (Redis error)", none, []⟩
  else if o.marshalOk = false then
    ⟨.serverError "Failed to prepare job message", some "queued", []⟩
  else if o.kafkaOk = false then
    ⟨.serverError "Failed to queue job for processing (Kafka error)", some "queued", []⟩
  else
    ⟨.okResp jobID, some "queued", [(jobID, uploadPath jobID filename)]⟩

/-- JSON body handleStatus produces for a found job: base fields plus the
optional projections of the job_id:details hash and the error message. -/
structure StatusResp where
  job_id : String
  status : String
  pdf_path : Option String := none
  cached : Option Bool := none
  filter_ms : Option String := none
  ocr_ms : Option String := none
  translate_ms : Option String := none
  pdf_ms : Option String := none
  error_message : Option String := none
deriving Repr, DecidableEq

/-- Result of one handleStatus call. -/
inductive StatusResult
  | fault
  | notFound
  | okResp (resp : StatusResp)
deriving Repr, DecidableEq

/-- Redis read outcomes during handleStatus: the base status Get, the
HGetAll of the details hash, and the Get of the error key (faults of the
latter two are tolerated and merely omit fields). -/
structure ReadOracle where
  statusOk : Bool
  detailsOk : Bool
  errorOk : Bool
deriving Repr, DecidableEq

/-- Ingress handleStatus: read job_id:status; absent means not found; for
a terminal status additionally project the job_id:details hash fields into
the response and, when failed, the job_id:error message. The pdf_path a
poller sees comes from the details hash, not from job_id:pdfpath. -/
def handleStatus (r : JobKeys) (jobID : String) (ro : ReadOracle) : StatusResult :=
  if ro.statusOk = false then .fault
  else
    match r.status with
    | none => .notFound
    | some s =>
      if s = "completed" ∨ s = "failed" then
        let d : List (String × String) := if ro.detailsOk then r.details else []
        .okResp { job_id := jobID, status := s,
                  pdf_path := d.lookup "pdf_path",
                  cached := (d.lookup "cached").map (fun v => v == "true"),
                  filter_ms := d.lookup "filter_ms",
                  ocr_ms := d.lookup "ocr_ms",
                  translate_ms := d.lookup "translate_ms",
                  pdf_ms := d.lookup "pdf_ms",
                  error_message :=
                    if s = "failed" then
                      (if ro.errorOk then r.error else none)
                    else none }
      else
        .okResp { job_id := jobID, status := s }

/-- Status field a polling client reads out of a handleStatus result. -/
def respStatus : StatusResult → Option String
  | .okResp r => some r.status
  | _ => none

/-- Artifact-path field a polling client reads out of a handleStatus
result. -/
def respPdfPath : StatusResult → Option String
  | .okResp r => r.pdf_path
  | _ => none

/-- Result of one handleDownload call: either an error body or a file
response carrying the served path and the attachment file name. -/
inductive DownloadResp
  | serverFault
  | notFound
  | clientError (status : String) (errMsg : Option String)
  | fileResp (path filename : String)
deriving Repr, DecidableEq

/-- Ingress handleDownload: MGet job_id:status; absent means not found; a
non-completed status yields a 400 body with the status and, when failed, a
non-empty stored error message; a completed status serves the file at
pdfDir/jobID.pdf under the attachment name jobID.pdf. The recorded
job_id:pdfpath key is not read. -/
def handleDownload (r : JobKeys) (jobID : String) (redisOk : Bool) : DownloadResp :=
  if redisOk = false then .serverFault
  else
    match r.status with
    | none => .notFound
    | some s =>
      if s ≠ "completed" then
        .clientError s
          (if s = "failed" then
            (match r.error with
             | some e => if e = "" then none else some e
             | none => none)
           else none)
      else
        .fileResp (pdfDir ++ "/" ++ jobID ++ ".pdf") (jobID ++ ".pdf")

/-! Translator: pkg/translator/translator.go. -/

/-- Configuration of the translation stage, from TranslationConfig
(durations in milliseconds). -/
structure TranslationConfig where
  cacheTTLms : Nat
  timeoutMs : Nat
  retryCount : Nat
  retryBackoffMs : Nat
deriving Repr, DecidableEq

/-- DefaultTranslationConfig: cache 7 days, 10 s timeout per attempt,
3 retries, 1 s backoff. -/
def DefaultTranslationConfig : TranslationConfig :=
  { cacheTTLms := 7 * 24 * 60 * 60 * 1000
    timeoutMs := 10 * 1000
    retryCount := 3
    retryBackoffMs := 1000 }

/-- Externally visible steps of the retry loop: one network call per
attempt, carrying the timeout the call is bounded by, and the sleeps
between attempts. -/
inductive TransEv
  | call (attempt timeoutMs : Nat)
  | sleep (ms : Nat)
deriving Repr, DecidableEq

/-- Retry loop of TranslateWithConfig from attempt i with the given number
of retries remaining: sleep the backoff before every attempt but the
first, call the external service with the configured timeout, stop on the
first success or when the retries are exhausted. -/
def retryFrom (google : Nat → Except String String) (cfg : TranslationConfig)
    (i remaining : Nat) : Except String String × List TransEv :=
  let evs : List TransEv :=
    (if i = 0 then [] else [TransEv.sleep cfg.retryBackoffMs]) ++
      [TransEv.call i cfg.timeoutMs]
  match google i, remaining with
  | .ok v, _ => (.ok v, evs)
  | .error e, 0 => (.error e, evs)
  | .error _, r + 1 =>
    let rest := retryFrom google cfg (i + 1) r
    (rest.1, evs ++ rest.2)
termination_by remaining

/-- TranslateWithConfig: return the cached translation when present;
otherwise run the retry loop (initial attempt plus cfg.retryCount retries)
and wrap a final error in ErrTranslationFailed. -/
def TranslateWithConfig (cached : Option String)
    (google : Nat → Except String String) (cfg : TranslationConfig) :
    Except String String × List TransEv :=
  match cached with
  | some t => (.ok t, [])
  | none =>
    let r := retryFrom google cfg 0 cfg.retryCount
    match r.1 with
    | .ok v => (.ok v, r.2)
    | .error e => (.error ("translation failed: " ++ e), r.2)

/-- Translate: TranslateWithConfig under DefaultTranslationConfig. -/
def Translate (cached : Option String) (google : Nat → Except String String) :
    Except String String × List TransEv :=
  TranslateWithConfig cached google DefaultTranslationConfig

/-- Expected call trace of the loop when the first success (or final
failure) happens at attempt j: calls 0..j, each with the configured
timeout, with one backoff sleep before every attempt after the first. -/
def attemptTrace (cfg : TranslationConfig) : Nat → List TransEv
  | 0 => [TransEv.call 0 cfg.timeoutMs]
  | j + 1 => attemptTrace cfg j ++ [TransEv.sleep cfg.retryBackoffMs, TransEv.call (j + 1) cfg.timeoutMs]

/-- Total milliseconds slept by a trace. -/
def sleepTotal (l : List TransEv) : Nat :=
  (l.map (fun e => match e with
    | .sleep ms => ms
    | _ => 0)).sum

/-! Concrete inputs used by closed counterexamples and witnesses. -/

/-- Initial ingress write of handleUpload on the Redis job keys: a bare
SET of job_id:status to queued. -/
def ingressQueuedWrite (r : JobKeys) : JobKeys := { r with status := some "queued" }

/-- Worker oracle where every external step succeeds. -/
def oAllOk : WOracle :=
  { mkdirOk := true, hashOk := true, probeFault := false
    filter := .ok "filtered.png", ocr := .ok "HELLO"
    translate := .ok "xin chao", pdfGen := .ok "tmp-gofpdf.pdf", renameOk := true
    filterMs := "5", ocrMs := "40", translateMs := "120", pdfMs := "10" }

/-- Worker oracle where the OCR collaborator fails. -/
def oOcrFail : WOracle := { oAllOk with ocr := .error "exit status 1" }

/-- Worker oracle where the cache probe returns a non-Nil store error. -/
def oProbeFault : WOracle := { oAllOk with probeFault := true }

/-- Upload oracle where every external step succeeds. -/
def uAllOk : UploadOracle :=
  { formOk := true, saveOk := true, redisOk := true, marshalOk := true, kafkaOk := true }

/-- Read oracle where every store read succeeds. -/
def rAllOk : ReadOracle := { statusOk := true, detailsOk := true, errorOk := true }

/-- Fresh job whose record only holds the initial queued status, with no
artifact-cache entry for its image. -/
def stQueued : WStore := ⟨ingressQueuedWrite JobKeys.fresh, none⟩

/-- Store state of a second, queued job for the same image after an
earlier job j1 completed fresh: the cache maps the fingerprint to the
recorded artifact of j1. -/
def stCacheWarm : WStore := ⟨ingressQueuedWrite JobKeys.fresh, some (pdfOutputPath "j1")⟩

/-- Record of a job currently processing (no result keys). -/
def rProcessing : JobKeys := updateJobStatus JobKeys.fresh "processing" ""

/-- Record of a job that failed at the OCR stage. -/
def rFailed : JobKeys := updateJobStatus JobKeys.fresh "failed" "OCR error: boom"

/-- External translation call that fails on every attempt. -/
def gAllFail : Nat → Except String String := fun _ => .error "dns timeout"

/-- External translation call that fails on the first attempt and succeeds
on the second. -/
def gSecondOk : Nat → Except String String :=
  fun i => if i = 0 then .error "dns timeout" else .ok "xin chao"

/-! Helper lemmas. -/

/-- Statuses written by a concatenation of effect lists. -/
theorem statusWrites_append (a b : List Ev) :
    statusWrites (a ++ b) = statusWrites a ++ statusWrites b := by
  simp [statusWrites]

/-- Exhaustive shape analysis of one processImage execution: an early
failure, a cache hit, a pipeline-stage failure after entering processing,
or a fresh success. -/
theorem processMiss_cases (j : String) (o : WOracle) :
    (∃ m, (processMiss j o).1 = none ∧
      (processMiss j o).2 = [Ev.status "processing" "", Ev.status "failed" m]) ∨
    ((processMiss j o).1 =
        some [("cached", "false"), ("filter_ms", o.filterMs), ("ocr_ms", o.ocrMs),
              ("translate_ms", o.translateMs), ("pdf_ms", o.pdfMs),
              ("pdf_path", pdfOutputPath j)] ∧
      (processMiss j o).2 = [Ev.status "processing" "",
        Ev.status "completed" (pdfOutputPath j), Ev.cachePut (pdfOutputPath j)]) := by
  obtain ⟨mk, hk, pf, fil, oc, tr, pg, rok, f1, f2, f3, f4⟩ := o
  simp only [processMiss]
  rcases fil with e | _
  · exact Or.inl ⟨"Image filtering error: " ++ e, rfl, rfl⟩
  rcases oc with e | _
  · exact Or.inl ⟨"OCR error: " ++ e, rfl, rfl⟩
  rcases tr with e | _
  · exact Or.inl ⟨"Translation error: " ++ e, rfl, rfl⟩
  rcases pg with e | temp
  · exact Or.inl ⟨"PDF generation error: " ++ e, rfl, rfl⟩
  dsimp only
  by_cases hr : temp ≠ pdfOutputPath j ∧ rok = false
  · rw [if_pos hr]
    exact Or.inl ⟨"Failed to rename/move PDF", rfl, rfl⟩
  · rw [if_neg hr]
    exact Or.inr ⟨rfl, rfl⟩

/-- Exhaustive shape analysis of one processImage execution. -/
theorem processImage_cases (c : Option String) (j : String) (o : WOracle) :
    (∃ m, (processImage c j o).1 = none ∧
      (processImage c j o).2 = [Ev.status "failed" m]) ∨
    (∃ p, p ≠ "" ∧
      (processImage c j o).1 = some [("pdf_path", p), ("cached", "true")] ∧
      (processImage c j o).2 = [Ev.status "completed" p]) ∨
    (∃ m, (processImage c j o).1 = none ∧
      (processImage c j o).2 = [Ev.status "processing" "", Ev.status "failed" m]) ∨
    ((processImage c j o).1 =
        some [("cached", "false"), ("filter_ms", o.filterMs), ("ocr_ms", o.ocrMs),
              ("translate_ms", o.translateMs), ("pdf_ms", o.pdfMs),
              ("pdf_path", pdfOutputPath j)] ∧
      (processImage c j o).2 = [Ev.status "processing" "",
        Ev.status "completed" (pdfOutputPath j), Ev.cachePut (pdfOutputPath j)]) := by
  have hmiss := processMiss_cases j o
  simp only [processImage]
  by_cases hm : o.mkdirOk = false
  · rw [if_pos hm]
    exact Or.inl ⟨"Cannot create PDF output directory", rfl, rfl⟩
  rw [if_neg hm]
  by_cases hh : o.hashOk = false
  · rw [if_pos hh]
    exact Or.inl ⟨"Failed to calculate image hash", rfl, rfl⟩
  rw [if_neg hh]
  rcases hpr : probeResult c o with v | _ | _
  · dsimp only
    by_cases hv : v = ""
    · rw [if_pos hv]
      rcases hmiss with ⟨m, h1, h2⟩ | ⟨h1, h2⟩
      · exact Or.inr (Or.inr (Or.inl ⟨m, h1, h2⟩))
      · exact Or.inr (Or.inr (Or.inr ⟨h1, h2⟩))
    · rw [if_neg hv]
      exact Or.inr (Or.inl ⟨v, hv, rfl, rfl⟩)
  · rcases hmiss with ⟨m, h1, h2⟩ | ⟨h1, h2⟩
    · exact Or.inr (Or.inr (Or.inl ⟨m, h1, h2⟩))
    · exact Or.inr (Or.inr (Or.inr ⟨h1, h2⟩))
  · rcases hmiss with ⟨m, h1, h2⟩ | ⟨h1, h2⟩
    · exact Or.inr (Or.inr (Or.inl ⟨m, h1, h2⟩))
    · exact Or.inr (Or.inr (Or.inr ⟨h1, h2⟩))

/-- The consumer-loop body rewritten through the processImage results. -/
theorem workerBody_def (st : WStore) (j : String) (o : WOracle) :
    workerBody st j o = (processImage st.cache j o).2 ++
      (match (processImage st.cache j o).1 with
       | some d => [Ev.saveDetails d]
       | none => []) := rfl

/-- In-place replacement of the entries keyed k: looking up k afterwards
yields the new value, provided k occurred. -/
theorem lookup_replace_self (m : List (String × String)) (k v : String)
    (h : (m.lookup k).isSome) :
    ((m.map (fun p => if p.1 = k then (k, v) else p)).lookup k) = some v := by
  induction m with
  | nil => simp at h
  | cons a t ih =>
    obtain ⟨a1, a2⟩ := a
    by_cases hak : a1 = k
    · subst hak
      simp [List.lookup_cons]
    · have hka : (k == a1) = false := beq_eq_false_iff_ne.mpr (Ne.symm hak)
      have ht : (t.lookup k).isSome := by
        simpa [List.lookup_cons, hka] using h
      simpa [List.lookup_cons, hak, hka] using ih ht

/-- In-place replacement of the entries keyed k leaves other lookups
unchanged. -/
theorem lookup_replace_other (m : List (String × String)) (k k2 v : String)
    (hne : k2 ≠ k) :
    ((m.map (fun p => if p.1 = k then (k, v) else p)).lookup k2) = m.lookup k2 := by
  induction m with
  | nil => simp
  | cons a t ih =>
    obtain ⟨a1, a2⟩ := a
    by_cases hak : a1 = k
    · subst hak
      have hk2 : (k2 == a1) = false := beq_eq_false_iff_ne.mpr hne
      simp [List.lookup_cons, hk2, ih]
    · by_cases hk2 : k2 = a1
      · subst hk2
        simp [List.lookup_cons, hak]
      · have hk2b : (k2 == a1) = false := beq_eq_false_iff_ne.mpr hk2
        simp [List.lookup_cons, hak, hk2b, ih]

/-- Appending a fresh entry keyed k: looking k up finds it when k did not
occur before. -/
theorem lookup_append_self (m : List (String × String)) (k v : String)
    (h : ¬ (m.lookup k).isSome) :
    ((m ++ [(k, v)]).lookup k) = some v := by
  induction m with
  | nil => simp [List.lookup_cons]
  | cons a t ih =>
    obtain ⟨a1, a2⟩ := a
    have hak : (k == a1) = false := by
      rcases hb : (k == a1) with _ | _
      · rfl
      · exact absurd (by simp [List.lookup_cons, hb]) h
    have ht : ¬ (t.lookup k).isSome := by
      intro hts
      exact h (by simpa [List.lookup_cons, hak] using hts)
    simpa [List.lookup_cons, hak] using ih ht

/-- Appending an entry keyed k leaves other lookups unchanged. -/
theorem lookup_append_other (m : List (String × String)) (k k2 v : String)
    (hne : k2 ≠ k) :
    ((m ++ [(k, v)]).lookup k2) = m.lookup k2 := by
  induction m with
  | nil => simp [List.lookup_cons, beq_eq_false_iff_ne.mpr hne]
  | cons a t ih =>
    obtain ⟨a1, a2⟩ := a
    by_cases hk2 : k2 = a1
    · subst hk2
      simp [List.lookup_cons]
    · have hk2b : (k2 == a1) = false := beq_eq_false_iff_ne.mpr hk2
      simpa [List.lookup_cons, hk2b] using ih

/-- Looking up the field just written by hsetField yields the new value. -/
theorem lookup_hsetField_self (m : List (String × String)) (k v : String) :
    (hsetField m k v).lookup k = some v := by
  unfold hsetField
  by_cases h : (m.lookup k).isSome
  · rw [if_pos h]
    exact lookup_replace_self m k v h
  · rw [if_neg h]
    exact lookup_append_self m k v h

/-- hsetField leaves the lookups of the other fields unchanged. -/
theorem lookup_hsetField_other (m : List (String × String)) (k k2 v : String)
    (hne : k2 ≠ k) : (hsetField m k v).lookup k2 = m.lookup k2 := by
  unfold hsetField
  by_cases h : (m.lookup k).isSome
  · rw [if_pos h]
    exact lookup_replace_other m k k2 v hne
  · rw [if_neg h]
    exact lookup_append_other m k k2 v hne

/-- C5: for every delivered job message the worker processes, the offset
commit is the last effect of the handling trace, the commit never occurs
among the store effects before it, and a terminal status write (completed
or failed) is always issued among those effects — so the commit never
precedes the terminal write. -/
theorem C5_commit_after_terminal_write (st : WStore) (jobID : String) (o : WOracle) :
    workerTrace st jobID o = workerBody st jobID o ++ [Ev.commit] ∧
    Ev.commit ∉ workerBody st jobID o ∧
    ∃ s r, (s = "completed" ∨ s = "failed") ∧ Ev.status s r ∈ workerBody st jobID o := by
  refine ⟨rfl, ?_⟩
  have h := processImage_cases st.cache jobID o
  rw [workerBody_def]
  rcases h with ⟨m, h1, h2⟩ | ⟨p, hp, h1, h2⟩ | ⟨m, h1, h2⟩ | ⟨h1, h2⟩
  · rw [h1, h2]
    exact ⟨by simp, "failed", m, Or.inr rfl, by simp⟩
  · rw [h1, h2]
    exact ⟨by simp, "completed", p, Or.inl rfl, by simp⟩
  · rw [h1, h2]
    exact ⟨by simp, "failed", m, Or.inr rfl, by simp⟩
  · rw [h1, h2]
    exact ⟨by simp, "completed", pdfOutputPath jobID, Or.inl rfl, by simp⟩

/-- C6 (amended): within any single delivery the statuses written are
monotone — the full trace writes exactly one of the sequences failed,
completed, processing-failed or processing-completed, so no single
execution writes completed before processing or anything after a terminal
status. Monotonicity across redeliveries fails; see the counterexample. -/
theorem C6_single_delivery_monotone (st : WStore) (jobID : String) (o : WOracle) :
    statusWrites (workerTrace st jobID o) = ["failed"] ∨
    statusWrites (workerTrace st jobID o) = ["completed"] ∨
    statusWrites (workerTrace st jobID o) = ["processing", "failed"] ∨
    statusWrites (workerTrace st jobID o) = ["processing", "completed"] := by
  have h := processImage_cases st.cache jobID o
  unfold workerTrace
  rw [workerBody_def]
  rcases h with ⟨m, h1, h2⟩ | ⟨p, hp, h1, h2⟩ | ⟨m, h1, h2⟩ | ⟨h1, h2⟩ <;>
    rw [h1, h2] <;> simp [statusWrites]

/-- C6 counterexample: a job that failed at the OCR stage and whose broker
message is then redelivered (at-least-once delivery) re-enters processing:
an observer of the job store reads failed and then processing, violating
the claimed monotonicity under redeliveries. -/
theorem C6_counterexample :
    (runMessage stQueued "j" oOcrFail).job.status = some "failed" ∧
    (applyEvs (runMessage stQueued "j" oOcrFail)
        ((workerTrace (runMessage stQueued "j" oOcrFail) "j" oAllOk).take 1)).job.status =
      some "processing" := by
  constructor <;> rfl

/-- C7: every write through the worker updateJobStatus leaves the record
with artifact path present iff the status is completed and error message
present iff the status is failed (each terminal write sets its own field
and deletes the other), and the initial ingress queued write on a fresh
record satisfies both biconditionals as well. -/
theorem C7_terminal_field_biconditionals :
    (∀ (r : JobKeys) (s v : String),
        ((updateJobStatus r s v).pdfpath.isSome ↔
          (updateJobStatus r s v).status = some "completed") ∧
        ((updateJobStatus r s v).error.isSome ↔
          (updateJobStatus r s v).status = some "failed")) ∧
    (((ingressQueuedWrite JobKeys.fresh).pdfpath.isSome ↔
        (ingressQueuedWrite JobKeys.fresh).status = some "completed") ∧
      ((ingressQueuedWrite JobKeys.fresh).error.isSome ↔
        (ingressQueuedWrite JobKeys.fresh).status = some "failed")) := by
  refine ⟨?_, by decide⟩
  intro r s v
  unfold updateJobStatus
  by_cases h1 : s = "completed"
  · simp [h1]
  by_cases h2 : s = "failed"
  · simp [h1, h2]
  · simp [h1, h2]

/-- C1 counterexample: an upload whose image fingerprint already has an
artifact-cache entry still gets job_id:status = queued (not completed) and
still publishes one broker message — the ingress handler never consults
the cache. -/
theorem C1_counterexample :
    (handleUpload stCacheWarm uAllOk "j9" "img.png").statusWrite = some "queued" ∧
    (handleUpload stCacheWarm uAllOk "j9" "img.png").statusWrite ≠ some "completed" ∧
    (handleUpload stCacheWarm uAllOk "j9" "img.png").published =
      [("j9", uploadPath "j9" "img.png")] := by
  refine ⟨rfl, by decide, rfl⟩

/-- C1 (amended): the Upload operation, cache hit or not, writes
job_id:status = queued, publishes exactly one broker message carrying the
job identifier and the staged image path, and returns the fresh job
identifier; the cache short-circuit instead happens in the worker, whose
probe hit writes the completed record with the cached artifact path and
details cached = true without running the pipeline. -/
theorem C1_upload_always_queues (st : WStore) (o : UploadOracle)
    (jobID filename : String) (c j2 : String) (o2 : WOracle)
    (hf : o.formOk = true) (hs : o.saveOk = true) (hr : o.redisOk = true)
    (hm : o.marshalOk = true) (hk : o.kafkaOk = true)
    (hc : c ≠ "") (h2m : o2.mkdirOk = true) (h2h : o2.hashOk = true)
    (h2p : o2.probeFault = false) :
    handleUpload st o jobID filename =
      ⟨.okResp jobID, some "queued", [(jobID, uploadPath jobID filename)]⟩ ∧
    processImage (some c) j2 o2 =
      (some [("pdf_path", c), ("cached", "true")], [Ev.status "completed" c]) := by
  constructor
  · unfold handleUpload
    rw [hf, hs, hr, hm, hk]
    rfl
  · unfold processImage probeResult
    rw [h2m, h2h, h2p]
    simp [hc]

/-- C1 witness. -/
theorem C1_upload_always_queues_witness :
    uAllOk.formOk = true ∧ oAllOk.mkdirOk = true ∧
    (handleUpload stCacheWarm uAllOk "j7" "a.png" =
        ⟨.okResp "j7", some "queued", [("j7", uploadPath "j7" "a.png")]⟩ ∧
      processImage (some (pdfOutputPath "j1")) "j7" oAllOk =
        (some [("pdf_path", pdfOutputPath "j1"), ("cached", "true")],
         [Ev.status "completed" (pdfOutputPath "j1")])) :=
  ⟨rfl, rfl,
    C1_upload_always_queues stCacheWarm uAllOk "j7" "a.png" (pdfOutputPath "j1") "j7" oAllOk
      rfl rfl rfl rfl rfl (by decide) rfl rfl rfl⟩

/-- C2 counterexample: between the worker terminal status write and the
later details write, a status poll on a reachable store state returns
status completed with no pdf_path field — the terminal write is not atomic
with respect to readers. -/
theorem C2_counterexample :
    handleStatus (applyEvs stQueued ((workerTrace stQueued "j" oAllOk).take 2)).job
        "j" rAllOk =
      .okResp { job_id := "j", status := "completed", pdf_path := none } := by
  rfl

/-- C2 (amended): the terminal status and the artifact location are
written in two separate store writes (updateJobStatus, then
saveJobDetails), so mid-delivery a poller can observe completed without a
path; once the delivery is fully handled, every successful run is
observed as completed with the pdf_path field present. -/
theorem C2_completed_visible_after_details (st : WStore) (j : String) (o : WOracle)
    (hsucc : (processImage st.cache j o).1.isSome = true) :
    respStatus (handleStatus (runMessage st j o).job j rAllOk) = some "completed" ∧
    (respPdfPath (handleStatus (runMessage st j o).job j rAllOk)).isSome = true := by
  have h := processImage_cases st.cache j o
  rcases h with ⟨m, h1, h2⟩ | ⟨p, hp, h1, h2⟩ | ⟨m, h1, h2⟩ | ⟨h1, h2⟩
  · rw [h1] at hsucc
    simp at hsucc
  · unfold runMessage workerTrace
    rw [workerBody_def, h1, h2]
    have hlk : (hmset st.job.details [("pdf_path", p), ("cached", "true")]).lookup
        "pdf_path" = some p := by
      unfold hmset
      simp only [List.foldl]
      rw [lookup_hsetField_other _ "cached" "pdf_path" "true" (by decide),
        lookup_hsetField_self]
    simp [applyEvs, applyEv, updateJobStatus, saveJobDetails, handleStatus, rAllOk,
      respStatus, respPdfPath, hlk]
  · rw [h1] at hsucc
    simp at hsucc
  · unfold runMessage workerTrace
    rw [workerBody_def, h1, h2]
    have hlk : (hmset st.job.details
        [("cached", "false"), ("filter_ms", o.filterMs), ("ocr_ms", o.ocrMs),
         ("translate_ms", o.translateMs), ("pdf_ms", o.pdfMs),
         ("pdf_path", pdfOutputPath j)]).lookup "pdf_path" =
        some (pdfOutputPath j) := by
      unfold hmset
      simp only [List.foldl]
      rw [lookup_hsetField_self]
    simp [applyEvs, applyEv, updateJobStatus, saveJobDetails, handleStatus, rAllOk,
      respStatus, respPdfPath, hlk]

/-- C2 witness. -/
theorem C2_completed_visible_after_details_witness :
    (processImage stQueued.cache "j" oAllOk).1.isSome = true ∧
    (respStatus (handleStatus (runMessage stQueued "j" oAllOk).job "j" rAllOk) =
        some "completed" ∧
      (respPdfPath (handleStatus (runMessage stQueued "j" oAllOk).job "j" rAllOk)).isSome =
        true) :=
  ⟨rfl, C2_completed_visible_after_details stQueued "j" oAllOk rfl⟩

/-- C3 counterexample: a job j2 completed through a cache hit records the
cached artifact of the earlier job j1 as its artifact path, yet download
serves the file at the deterministic path pdfDir/j2.pdf, which differs
from the recorded path — the recorded artifact_path is not what is
streamed. -/
theorem C3_counterexample :
    (runMessage stCacheWarm "j2" oAllOk).job.status = some "completed" ∧
    (runMessage stCacheWarm "j2" oAllOk).job.pdfpath = some (pdfOutputPath "j1") ∧
    handleDownload (runMessage stCacheWarm "j2" oAllOk).job "j2" true =
      .fileResp (pdfOutputPath "j2") ("j2" ++ ".pdf") ∧
    pdfOutputPath "j2" ≠ pdfOutputPath "j1" := by
  refine ⟨rfl, rfl, rfl, by decide⟩

/-- C3 (amended): for every completed job, download serves the file at
the deterministic path pdfDir/jobID.pdf under the attachment name
jobID.pdf, regardless of the recorded artifact path; for a job completed
by a fresh pipeline run the recorded artifact path coincides with that
deterministic path (the divergence arises only for cache-hit jobs). -/
theorem C3_download_serves_deterministic_path (r : JobKeys) (jobID : String)
    (st : WStore) (j : String) (o : WOracle)
    (hc : r.status = some "completed")
    (hfresh : (processImage st.cache j o).2 = [Ev.status "processing" "",
      Ev.status "completed" (pdfOutputPath j), Ev.cachePut (pdfOutputPath j)]) :
    handleDownload r jobID true = .fileResp (pdfOutputPath jobID) (jobID ++ ".pdf") ∧
    (runMessage st j o).job.pdfpath = some (pdfOutputPath j) := by
  constructor
  · unfold handleDownload
    rw [hc]
    simp [pdfOutputPath]
  · have h := processImage_cases st.cache j o
    unfold runMessage workerTrace
    rw [workerBody_def]
    rcases h with ⟨m, h1, h2⟩ | ⟨p, hp, h1, h2⟩ | ⟨m, h1, h2⟩ | ⟨h1, h2⟩
    · rw [h2] at hfresh
      simp at hfresh
    · rw [h2] at hfresh
      simp at hfresh
    · rw [h2] at hfresh
      simp at hfresh
    · rw [h1, h2]
      simp [applyEvs, applyEv, updateJobStatus, saveJobDetails]

/-- C3 witness. -/
theorem C3_download_serves_deterministic_path_witness :
    (runMessage stCacheWarm "j2" oAllOk).job.status = some "completed" ∧
    (handleDownload (runMessage stCacheWarm "j2" oAllOk).job "j3" true =
        .fileResp (pdfOutputPath "j3") ("j3" ++ ".pdf") ∧
      (runMessage stQueued "j4" oAllOk).job.pdfpath = some (pdfOutputPath "j4")) :=
  ⟨rfl, C3_download_serves_deterministic_path (runMessage stCacheWarm "j2" oAllOk).job
    "j3" stQueued "j4" oAllOk rfl rfl⟩

/-- C4 counterexample: after a fresh completion the details map records
cached = false; redelivering the same message rewrites details.cached to
true through the worker cache probe, so the JobRecord does not stay
exactly unchanged. -/
theorem C4_counterexample :
    (runMessage stQueued "j" oAllOk).job.details.lookup "cached" = some "false" ∧
    (runMessage (runMessage stQueued "j" oAllOk) "j" oAllOk).job.details.lookup
        "cached" = some "true" ∧
    (runMessage (runMessage stQueued "j" oAllOk) "j" oAllOk).job ≠
      (runMessage stQueued "j" oAllOk).job := by
  refine ⟨rfl, rfl, by decide⟩

/-- C4 (amended): redelivering a message for a job whose image fingerprint
is cached re-runs no pipeline stage (the only status write is completed)
and leaves status, artifact path and error unchanged for a record already
completed with that path, but it does rewrite the details map: pdf_path is
overwritten with the same cached path and cached is overwritten to true. -/
theorem C4_redelivery_flips_cached_flag (st : WStore) (j : String) (o : WOracle)
    (p : String)
    (_hco : st.job.status = some "completed") (_hcp : st.job.pdfpath = some p)
    (hcache : st.cache = some p) (hp : p ≠ "")
    (hm : o.mkdirOk = true) (hh : o.hashOk = true) (hpf : o.probeFault = false) :
    (runMessage st j o).job.status = some "completed" ∧
    (runMessage st j o).job.pdfpath = some p ∧
    (runMessage st j o).job.error = none ∧
    (runMessage st j o).job.details =
      hmset st.job.details [("pdf_path", p), ("cached", "true")] ∧
    statusWrites (workerTrace st j o) = ["completed"] := by
  have hpi : processImage st.cache j o =
      (some [("pdf_path", p), ("cached", "true")], [Ev.status "completed" p]) := by
    unfold processImage probeResult
    rw [hm, hh, hpf, hcache]
    simp [hp]
  constructor
  · unfold runMessage workerTrace
    rw [workerBody_def, hpi]
    simp [applyEvs, applyEv, updateJobStatus, saveJobDetails]
  constructor
  · unfold runMessage workerTrace
    rw [workerBody_def, hpi]
    simp [applyEvs, applyEv, updateJobStatus, saveJobDetails]
  constructor
  · unfold runMessage workerTrace
    rw [workerBody_def, hpi]
    simp [applyEvs, applyEv, updateJobStatus, saveJobDetails]
  constructor
  · unfold runMessage workerTrace
    rw [workerBody_def, hpi]
    simp [applyEvs, applyEv, updateJobStatus, saveJobDetails]
  · unfold workerTrace
    rw [workerBody_def, hpi]
    simp [statusWrites]

/-- C4 witness, replaying the delivery of a freshly completed job. -/
theorem C4_redelivery_flips_cached_flag_witness :
    (runMessage stQueued "j" oAllOk).job.status = some "completed" ∧
    ((runMessage (runMessage stQueued "j" oAllOk) "j" oAllOk).job.pdfpath =
        some (pdfOutputPath "j") ∧
      (runMessage (runMessage stQueued "j" oAllOk) "j" oAllOk).job.details =
        hmset (runMessage stQueued "j" oAllOk).job.details
          [("pdf_path", pdfOutputPath "j"), ("cached", "true")]) :=
  ⟨rfl,
    ((C4_redelivery_flips_cached_flag (runMessage stQueued "j" oAllOk) "j" oAllOk
        (pdfOutputPath "j") rfl rfl rfl (by decide) rfl rfl rfl).2.1),
    ((C4_redelivery_flips_cached_flag (runMessage stQueued "j" oAllOk) "j" oAllOk
        (pdfOutputPath "j") rfl rfl rfl (by decide) rfl rfl rfl).2.2.2.1)⟩

/-- C8: download of an unknown job identifier is not found; download of a
job in any non-completed status is a client error carrying that status,
with the stored error message when the status is failed, and never a file
response. -/
theorem C8_download_guard (r : JobKeys) (jobID : String) :
    (r.status = none → handleDownload r jobID true = .notFound) ∧
    (∀ s, r.status = some s → s ≠ "completed" → s ≠ "failed" →
      handleDownload r jobID true = .clientError s none) ∧
    (∀ e, r.status = some "failed" → r.error = some e → e ≠ "" →
      handleDownload r jobID true = .clientError "failed" (some e)) ∧
    (∀ s, r.status = some s → s ≠ "completed" →
      ∀ p f, handleDownload r jobID true ≠ .fileResp p f) := by
  refine ⟨?_, ?_, ?_, ?_⟩
  · intro h
    unfold handleDownload
    rw [h]
    rfl
  · intro s hs hsc hsf
    unfold handleDownload
    rw [hs]
    simp [hsc, hsf]
  · intro e hs he hne
    unfold handleDownload
    rw [hs, he]
    simp [hne]
  · intro s hs hsc p f
    unfold handleDownload
    rw [hs]
    simp [hsc]

/-- C8 witness: an absent record, a processing record, and a failed
record. -/
theorem C8_download_guard_witness :
    handleDownload JobKeys.fresh "x" true = .notFound ∧
    handleDownload rProcessing "x" true = .clientError "processing" none ∧
    handleDownload rFailed "x" true = .clientError "failed" (some "OCR error: boom") ∧
    handleDownload rProcessing "x" true ≠ .fileResp (pdfOutputPath "x") "x.pdf" :=
  ⟨(C8_download_guard JobKeys.fresh "x").1 rfl,
   (C8_download_guard rProcessing "x").2.1 "processing" rfl (by decide) (by decide),
   (C8_download_guard rFailed "x").2.2.1 "OCR error: boom" rfl rfl (by decide),
   (C8_download_guard rProcessing "x").2.2.2 "processing" rfl (by decide)
     (pdfOutputPath "x") "x.pdf"⟩

/-- C10: a cache probe ending in a store error other than key-absent
behaves exactly as a cache miss — the execution equals the one on an
absent cache entry, it is the miss continuation (so the job transitions
to processing as its first status write), and a successful run records
details cached = false; the probe fault alone never yields a failed
record. -/
theorem C10_probe_fault_is_cache_miss (c : Option String) (j : String)
    (o : WOracle) (dd : List (String × String))
    (hm : o.mkdirOk = true) (hh : o.hashOk = true) :
    processImage c j { o with probeFault := true } =
      processImage none j { o with probeFault := false } ∧
    processImage c j { o with probeFault := true } =
      processMiss j { o with probeFault := true } ∧
    ((processImage c j { o with probeFault := true }).2.head? =
      some (Ev.status "processing" "")) ∧
    ((processImage c j { o with probeFault := true }).1 = some dd →
      dd.lookup "cached" = some "false") := by
  obtain ⟨mk, hk, pf, fil, oc, tr, pg, rok, f1, f2, f3, f4⟩ := o
  simp only at hm hh
  subst hm hh
  have hmiss : processImage c j
      (⟨true, true, true, fil, oc, tr, pg, rok, f1, f2, f3, f4⟩ : WOracle) =
      processMiss j (⟨true, true, true, fil, oc, tr, pg, rok, f1, f2, f3, f4⟩ : WOracle) := rfl
  refine ⟨rfl, rfl, ?_, ?_⟩
  · rw [hmiss]
    have h := processMiss_cases j
      (⟨true, true, true, fil, oc, tr, pg, rok, f1, f2, f3, f4⟩ : WOracle)
    rcases h with ⟨m, _, h2⟩ | ⟨_, h2⟩ <;> rw [h2] <;> rfl
  · intro hdd
    rw [hmiss] at hdd
    have h := processMiss_cases j
      (⟨true, true, true, fil, oc, tr, pg, rok, f1, f2, f3, f4⟩ : WOracle)
    rcases h with ⟨m, h1, _⟩ | ⟨h1, _⟩
    · rw [h1] at hdd
      exact absurd hdd (by simp)
    · rw [h1] at hdd
      rw [(Option.some.injEq _ _).mp hdd.symm]
      rfl

/-- C10 witness. -/
theorem C10_probe_fault_is_cache_miss_witness :
    oAllOk.mkdirOk = true ∧ oAllOk.hashOk = true ∧
    processImage (some (pdfOutputPath "j1")) "j" { oAllOk with probeFault := true } =
      processImage none "j" { oAllOk with probeFault := false } ∧
    ((processImage (some (pdfOutputPath "j1")) "j"
        { oAllOk with probeFault := true }).2.head? =
      some (Ev.status "processing" "")) :=
  ⟨rfl, rfl,
    (C10_probe_fault_is_cache_miss (some (pdfOutputPath "j1")) "j" oAllOk [] rfl rfl).1,
    (C10_probe_fault_is_cache_miss (some (pdfOutputPath "j1")) "j" oAllOk [] rfl rfl).2.2.1⟩

/-- C9: on a translation-cache miss the stage makes the initial external
call and retries up to 3 more times before declaring failure (the final
error is wrapped and returned); the first successful attempt ends the loop
and yields that attempt result; the backoff slept before retry n grows
linearly (total n backoffs after n retries); and every call is issued with
the configured per-attempt timeout. -/
theorem C9_translate_retry (google : Nat → Except String String) (j : Nat)
    (v e0 e1 e2 e3 : String) :
    (google 0 = .error e0 → google 1 = .error e1 → google 2 = .error e2 →
      google 3 = .error e3 →
      (Translate none google).1 = .error ("translation failed: " ++ e3) ∧
      (Translate none google).2 = attemptTrace DefaultTranslationConfig 3) ∧
    (j ≤ 3 → google j = .ok v → (∀ i, i < j → ∃ e, google i = .error e) →
      (Translate none google).1 = .ok v ∧
      (Translate none google).2 = attemptTrace DefaultTranslationConfig j) ∧
    (∀ n, sleepTotal (attemptTrace DefaultTranslationConfig n) =
      n * DefaultTranslationConfig.retryBackoffMs) ∧
    (∀ n i t, TransEv.call i t ∈ attemptTrace DefaultTranslationConfig n →
      t = DefaultTranslationConfig.timeoutMs) := by
  refine ⟨?_, ?_, ?_, ?_⟩
  · intro he0 he1 he2 he3
    constructor <;>
      simp [Translate, TranslateWithConfig, DefaultTranslationConfig, retryFrom,
        he0, he1, he2, he3, attemptTrace]
  · intro hj hok hfail
    interval_cases j
    · constructor <;>
        simp [Translate, TranslateWithConfig, DefaultTranslationConfig, retryFrom,
          hok, attemptTrace]
    · obtain ⟨f0, hf0⟩ := hfail 0 (by decide)
      constructor <;>
        simp [Translate, TranslateWithConfig, DefaultTranslationConfig, retryFrom,
          hf0, hok, attemptTrace]
    · obtain ⟨f0, hf0⟩ := hfail 0 (by decide)
      obtain ⟨f1, hf1⟩ := hfail 1 (by decide)
      constructor <;>
        simp [Translate, TranslateWithConfig, DefaultTranslationConfig, retryFrom,
          hf0, hf1, hok, attemptTrace]
    · obtain ⟨f0, hf0⟩ := hfail 0 (by decide)
      obtain ⟨f1, hf1⟩ := hfail 1 (by decide)
      obtain ⟨f2, hf2⟩ := hfail 2 (by decide)
      constructor <;>
        simp [Translate, TranslateWithConfig, DefaultTranslationConfig, retryFrom,
          hf0, hf1, hf2, hok, attemptTrace]
  · intro n
    induction n with
    | zero => rfl
    | succ n ih =>
      simp [attemptTrace, sleepTotal, List.map_append, DefaultTranslationConfig] at ih ⊢
      omega
  · intro n i t
    induction n with
    | zero =>
      intro hmem
      simp [attemptTrace] at hmem
      exact hmem.2
    | succ n ih =>
      intro hmem
      simp only [attemptTrace, List.mem_append] at hmem
      rcases hmem with h | h
      · exact ih h
      · simp at h
        exact h.2

/-- C9 witness: a service failing on all four attempts, and one failing
once then succeeding. -/
theorem C9_translate_retry_witness :
    gAllFail 0 = .error "dns timeout" ∧
    gSecondOk 1 = .ok "xin chao" ∧
    ((Translate none gAllFail).1 = .error ("translation failed: " ++ "dns timeout") ∧
      (Translate none gAllFail).2 = attemptTrace DefaultTranslationConfig 3) ∧
    ((Translate none gSecondOk).1 = .ok "xin chao" ∧
      (Translate none gSecondOk).2 = attemptTrace DefaultTranslationConfig 1) ∧
    sleepTotal (attemptTrace DefaultTranslationConfig 3) =
      3 * DefaultTranslationConfig.retryBackoffMs :=
  ⟨rfl, rfl,
    (C9_translate_retry gAllFail 0 "" "dns timeout" "dns timeout" "dns timeout"
      "dns timeout").1 rfl rfl rfl rfl,
    (C9_translate_retry gSecondOk 1 "xin chao" "" "" "" "").2.1 (by decide) rfl
      (fun i hi => ⟨"dns timeout", by interval_cases i; rfl⟩),
    (C9_translate_retry gAllFail 0 "" "" "" "" "").2.2.1 3⟩

end KTPM
